import Mathlib

/-!
Shallow embedding of `src/MyApp.py`, a Flask console for an S3-compatible
object store.  The application holds no state of its own: every handler asks
the credential resolver for a client, performs one or two remote calls, flashes
a notice and navigates.  We model the remote store as an explicit state
(`S3State`), each remote call outcome as an `Option String` fault parameter
(`some e` meaning the provider raised an error whose `str(e)` is `e`), and each
Flask handler as a total function from its inputs, fault schedule and store
state to a `HandlerResult` (final store state, flashed notices in order, the
trace of remote calls attempted, and the navigation outcome).
-/

namespace MyApp

/-- Python exceptions distinguished by `MyApp.py` (`NoCredentialsError`,
`ClientError e` with `str(e) = e`). -/
inductive PyExn where
  | noCredentialsError
  | clientError (msg : String)
deriving DecidableEq, Repr

/-- `get_s3_client` (MyApp.py lines 12-17): `boto3.client("s3")` either returns
a client handle (modelled `Unit`) or raises; the `except NoCredentialsError`
clause converts exactly that exception into `None`.  The argument is the
outcome of the client construction; the result is the function's outcome
(`Except.error` would be an exception escaping the boundary). -/
def get_s3_client (construct : Except PyExn Unit) : Except PyExn (Option Unit) :=
  match construct with
  | .ok c => .ok (some c)
  | .error .noCredentialsError => .ok none
  | .error e => .error e

/-- The fixed notice flashed by `ensure_s3` when no client is available
(MyApp.py line 24). -/
def credsNotice : String := " AWS credentials not found. Please configure them."

/-- `ensure_s3` (MyApp.py lines 20-26): checks credentials before any endpoint
uses S3.  `creds = true` means `get_s3_client` produced a client.  Returns the
optional client together with the notices flashed during the check. -/
def ensure_s3 (creds : Bool) : Option Unit × List String :=
  if creds then (some (), []) else (none, [credsNotice])

/-- The remote store's state: bucket names and a finite map from
(bucket, key) to object content (bytes as `List Nat`). -/
structure S3State where
  buckets : List String
  objects : List ((String × String) × List Nat)
deriving DecidableEq, Repr

/-- Content of the object at (bucket, key), if present. -/
def S3State.getObj (st : S3State) (b k : String) : Option (List Nat) :=
  (st.objects.find? (fun p => p.1.1 == b && p.1.2 == k)).map (fun p => p.2)

/-- Store `content` at (bucket, key), replacing any previous object there. -/
def S3State.putObj (st : S3State) (b k : String) (content : List Nat) : S3State :=
  { st with objects := ((b, k), content) ::
      st.objects.filter (fun p => !(p.1.1 == b && p.1.2 == k)) }

/-- Remove the object at (bucket, key) (S3 delete succeeds even if absent). -/
def S3State.delObj (st : S3State) (b k : String) : S3State :=
  { st with objects := st.objects.filter (fun p => !(p.1.1 == b && p.1.2 == k)) }

/-- The objects listed under `bucket` (what `list_objects_v2` reports). -/
def S3State.objectsIn (st : S3State) (b : String) : List ((String × String) × List Nat) :=
  st.objects.filter (fun p => p.1.1 == b)

/-- One remote storage call, as attempted by a handler (the boto3 method and
its arguments). -/
inductive RemoteCall where
  | listBuckets
  | listObjectsV2 (bucket : String)
  | createBucket (bucket : String)
  | deleteBucket (bucket : String)
  | uploadFileobj (bucket key : String)
  | deleteObject (bucket key : String)
  | downloadFileobj (bucket key : String)
  | copy (srcBucket srcKey destBucket destKey : String)
  | putObject (bucket key : String)
deriving DecidableEq, Repr

/-- Where the handler navigates: a rendered page, a redirect, or a file
attachment response. -/
inductive Nav where
  | renderHome (buckets : Option (List String))
  | renderObjects (bucket : String) (contents : List ((String × String) × List Nat))
      (buckets : List String)
  | redirectHome
  | redirectList (bucket : String)
  | sendFile (downloadName : String) (content : List Nat)
deriving DecidableEq, Repr

/-- Whether the navigation lands on the home view (rendering it or
redirecting to it). -/
def Nav.isHome : Nav → Bool
  | .renderHome _ => true
  | .redirectHome => true
  | _ => false

/-- A handler's observable outcome: final store state, notices flashed in
order, the remote calls attempted in order, and the navigation. -/
structure HandlerResult where
  state : S3State
  flashes : List String
  calls : List RemoteCall
  nav : Nav
deriving DecidableEq, Repr

/-- The provider's error text when a copy or download names a missing source
object (S3 reports `NoSuchKey`; the exact text is the provider's, not the
application's). -/
def noSuchKeyMsg : String := "An error occurred (NoSuchKey): The specified key does not exist."

/-- `home` (MyApp.py lines 35-45): `GET /`.  `fBuckets` is the provider's
verdict on the `list_buckets` call. -/
def home (creds : Bool) (fBuckets : Option String) (st : S3State) : HandlerResult :=
  match ensure_s3 creds with
  | (none, fl) => ⟨st, fl, [], .renderHome none⟩
  | (some _, fl) =>
    match fBuckets with
    | some e => ⟨st, fl ++ [" AWS error: " ++ e], [.listBuckets], .renderHome none⟩
    | none => ⟨st, fl, [.listBuckets], .renderHome (some st.buckets)⟩

/-- `list_objects` (MyApp.py lines 48-63): `GET /bucket/<bucket>`.  Two remote
calls in order: `list_objects_v2`, then `list_buckets`; `fKeys` and `fBuckets`
are the provider's verdicts on them. -/
def list_objects (creds : Bool) (bucket : String) (fKeys fBuckets : Option String)
    (st : S3State) : HandlerResult :=
  match ensure_s3 creds with
  | (none, fl) => ⟨st, fl, [], .redirectHome⟩
  | (some _, fl) =>
    match fKeys with
    | some e =>
      ⟨st, fl ++ [" Error accessing bucket: " ++ e], [.listObjectsV2 bucket], .redirectHome⟩
    | none =>
      match fBuckets with
      | some e =>
        ⟨st, fl ++ [" Error accessing bucket: " ++ e],
          [.listObjectsV2 bucket, .listBuckets], .redirectHome⟩
      | none =>
        ⟨st, fl, [.listObjectsV2 bucket, .listBuckets],
          .renderObjects bucket (st.objectsIn bucket) st.buckets⟩

/-- `create_bucket` (MyApp.py lines 66-78): `POST /create_bucket` with form
field `bucket_name`. -/
def create_bucket (creds : Bool) (bucket_name : String) (fCreate : Option String)
    (st : S3State) : HandlerResult :=
  match ensure_s3 creds with
  | (none, fl) => ⟨st, fl, [], .redirectHome⟩
  | (some _, fl) =>
    match fCreate with
    | some e =>
      ⟨st, fl ++ [" Failed to create bucket: " ++ e], [.createBucket bucket_name], .redirectHome⟩
    | none =>
      ⟨{ st with buckets := st.buckets ++ [bucket_name] },
        fl ++ [" Bucket '" ++ bucket_name ++ "' created successfully"],
        [.createBucket bucket_name], .redirectHome⟩

/-- `delete_bucket` (MyApp.py lines 81-92): `GET /delete_bucket/<bucket>`. -/
def delete_bucket (creds : Bool) (bucket : String) (fDelete : Option String)
    (st : S3State) : HandlerResult :=
  match ensure_s3 creds with
  | (none, fl) => ⟨st, fl, [], .redirectHome⟩
  | (some _, fl) =>
    match fDelete with
    | some e =>
      ⟨st, fl ++ [" Failed to delete bucket: " ++ e], [.deleteBucket bucket], .redirectHome⟩
    | none =>
      ⟨{ st with buckets := st.buckets.filter (fun b => !(b == bucket)) },
        fl ++ [" Bucket '" ++ bucket ++ "' deleted successfully"],
        [.deleteBucket bucket], .redirectHome⟩

/-- `upload_file` (MyApp.py lines 95-108): `POST /upload/<bucket>` with
multipart field `file`.  `file` is `none` when the submitted `FileStorage` is
falsy (no file chosen), else `some (filename, content)`. -/
def upload_file (creds : Bool) (bucket : String) (file : Option (String × List Nat))
    (fUpload : Option String) (st : S3State) : HandlerResult :=
  match ensure_s3 creds with
  | (none, fl) => ⟨st, fl, [], .redirectHome⟩
  | (some _, fl) =>
    match file with
    | none => ⟨st, fl, [], .redirectList bucket⟩
    | some (filename, content) =>
      match fUpload with
      | some e =>
        ⟨st, fl ++ [" Upload failed: " ++ e], [.uploadFileobj bucket filename],
          .redirectList bucket⟩
      | none =>
        ⟨st.putObj bucket filename content,
          fl ++ [" File '" ++ filename ++ "' uploaded successfully"],
          [.uploadFileobj bucket filename], .redirectList bucket⟩

/-- `delete_file` (MyApp.py lines 111-122): `GET /delete_file/<bucket>/<path:key>`. -/
def delete_file (creds : Bool) (bucket key : String) (fDelete : Option String)
    (st : S3State) : HandlerResult :=
  match ensure_s3 creds with
  | (none, fl) => ⟨st, fl, [], .redirectHome⟩
  | (some _, fl) =>
    match fDelete with
    | some e =>
      ⟨st, fl ++ [" Delete failed: " ++ e], [.deleteObject bucket key], .redirectList bucket⟩
    | none =>
      ⟨st.delObj bucket key, fl ++ [" File '" ++ key ++ "' deleted successfully"],
        [.deleteObject bucket key], .redirectList bucket⟩

/-- Python's `key.split("/")`: the `/`-separated segments, keeping empty
segments, as a list of character lists. -/
def splitOnSlash : List Char → List (List Char)
  | [] => [[]]
  | c :: cs =>
    let r := splitOnSlash cs
    if c = '/' then [] :: r
    else
      match r with
      | [] => [[c]]
      | seg :: rest => (c :: seg) :: rest

/-- `key.split("/")[-1]` (MyApp.py line 139): the final `/`-separated segment
of the key (`split` always returns at least one segment, so `[-1]` is its
last element). -/
def lastSegment (key : String) : String :=
  ⟨(splitOnSlash key.data).getLastD []⟩

/-- `download_file` (MyApp.py lines 125-143): `GET /download_file/<bucket>/<path:key>`.
On success sends the object's bytes as an attachment named by the last path
segment of the key. -/
def download_file (creds : Bool) (bucket key : String) (fDownload : Option String)
    (st : S3State) : HandlerResult :=
  match ensure_s3 creds with
  | (none, fl) => ⟨st, fl, [], .redirectHome⟩
  | (some _, fl) =>
    match fDownload with
    | some e =>
      ⟨st, fl ++ [" Download failed: " ++ e], [.downloadFileobj bucket key],
        .redirectList bucket⟩
    | none =>
      match st.getObj bucket key with
      | none =>
        ⟨st, fl ++ [" Download failed: " ++ noSuchKeyMsg], [.downloadFileobj bucket key],
          .redirectList bucket⟩
      | some content =>
        ⟨st, fl, [.downloadFileobj bucket key], .sendFile (lastSegment key) content⟩

/-- `copy_file` (MyApp.py lines 146-160): `POST /copy_file/<bucket>/<path:key>`
with form fields `dest_bucket` and optional `dest_key`
(`request.form.get("dest_key", key)` defaults to the source key). -/
def copy_file (creds : Bool) (bucket key dest_bucket : String)
    (destKeyField : Option String) (fCopy : Option String) (st : S3State) : HandlerResult :=
  match ensure_s3 creds with
  | (none, fl) => ⟨st, fl, [], .redirectHome⟩
  | (some _, fl) =>
    let dest_key := destKeyField.getD key
    match fCopy with
    | some e =>
      ⟨st, fl ++ [" Copy failed: " ++ e], [.copy bucket key dest_bucket dest_key],
        .redirectList bucket⟩
    | none =>
      match st.getObj bucket key with
      | none =>
        ⟨st, fl ++ [" Copy failed: " ++ noSuchKeyMsg],
          [.copy bucket key dest_bucket dest_key], .redirectList bucket⟩
      | some content =>
        ⟨st.putObj dest_bucket dest_key content,
          fl ++ [" File '" ++ key ++ "' copied to " ++ dest_bucket ++ "/" ++ dest_key],
          [.copy bucket key dest_bucket dest_key], .redirectList bucket⟩

/-- `move_file` (MyApp.py lines 163-178): `POST /move_file/<bucket>/<path:key>`,
same form fields as copy.  Copies, then deletes the source; both calls sit in
one `try`, so a failure of either lands in the same `except` clause and no
compensation runs. -/
def move_file (creds : Bool) (bucket key dest_bucket : String)
    (destKeyField : Option String) (fCopy fDelete : Option String)
    (st : S3State) : HandlerResult :=
  match ensure_s3 creds with
  | (none, fl) => ⟨st, fl, [], .redirectHome⟩
  | (some _, fl) =>
    let dest_key := destKeyField.getD key
    match fCopy with
    | some e =>
      ⟨st, fl ++ [" Move failed: " ++ e], [.copy bucket key dest_bucket dest_key],
        .redirectList bucket⟩
    | none =>
      match st.getObj bucket key with
      | none =>
        ⟨st, fl ++ [" Move failed: " ++ noSuchKeyMsg],
          [.copy bucket key dest_bucket dest_key], .redirectList bucket⟩
      | some content =>
        match fDelete with
        | some e =>
          ⟨st.putObj dest_bucket dest_key content, fl ++ [" Move failed: " ++ e],
            [.copy bucket key dest_bucket dest_key, .deleteObject bucket key],
            .redirectList bucket⟩
        | none =>
          ⟨(st.putObj dest_bucket dest_key content).delObj bucket key,
            fl ++ [" File '" ++ key ++ "' moved to " ++ dest_bucket ++ "/" ++ dest_key],
            [.copy bucket key dest_bucket dest_key, .deleteObject bucket key],
            .redirectList bucket⟩

/-- Python's `s.endswith("/")`: whether the last character is a slash
(`false` on the empty string). -/
def endswithSlash (s : String) : Bool :=
  s.data.getLast? == some '/'

/-- The folder-name normalization in `create_folder` (MyApp.py lines 188-189):
append `"/"` unless the name already ends with it. -/
def normalizeFolderName (folder_name : String) : String :=
  if endswithSlash folder_name then folder_name else folder_name ++ "/"

/-- `create_folder` (MyApp.py lines 181-195): `POST /create_folder/<bucket>`
with form field `folder_name`; puts a zero-byte object under the normalized
key. -/
def create_folder (creds : Bool) (bucket folder_name : String) (fPut : Option String)
    (st : S3State) : HandlerResult :=
  match ensure_s3 creds with
  | (none, fl) => ⟨st, fl, [], .redirectHome⟩
  | (some _, fl) =>
    let name := normalizeFolderName folder_name
    match fPut with
    | some e =>
      ⟨st, fl ++ [" Failed to create folder: " ++ e], [.putObject bucket name],
        .redirectList bucket⟩
    | none =>
      ⟨st.putObj bucket name [],
        fl ++ [" Folder '" ++ name ++ "' created in bucket '" ++ bucket ++ "'"],
        [.putObject bucket name], .redirectList bucket⟩

/-- Uppercase hexadecimal digit for `n < 16` (Python's `quote` emits uppercase
hex in percent escapes). -/
def hexDigit (n : Nat) : Char :=
  if n < 10 then Char.ofNat (48 + n) else Char.ofNat (55 + n)

/-- UTF-8 encoding of one character, as `str.encode("utf-8")` produces it
(Python's `quote` encodes the string to UTF-8 before quoting byte-wise). -/
def utf8Bytes (c : Char) : List Nat :=
  let n := c.toNat
  if n < 128 then [n]
  else if n < 2048 then [192 + n / 64, 128 + n % 64]
  else if n < 65536 then [224 + n / 4096, 128 + n / 64 % 64, 128 + n % 64]
  else [240 + n / 262144, 128 + n / 4096 % 64, 128 + n / 64 % 64, 128 + n % 64]

/-- The characters `urllib.parse.quote_plus` leaves unquoted with its default
`safe=''`: ASCII letters, digits, and `_`, `.`, `-`, `~`. -/
def quoteSafe (c : Char) : Bool :=
  c.isAlphanum || c == '_' || c == '.' || c == '-' || c == '~'

/-- `quote_plus` on one character: space becomes `+`, safe characters pass
through, everything else becomes `%XX` per UTF-8 byte. -/
def quotePlusChar (c : Char) : List Char :=
  if c = ' ' then ['+']
  else if quoteSafe c then [c]
  else (utf8Bytes c).flatMap (fun b => ['%', hexDigit (b / 16), hexDigit (b % 16)])

/-- `quote_plus` over a character list. -/
def quotePlusList : List Char → List Char
  | [] => []
  | c :: cs => quotePlusChar c ++ quotePlusList cs

/-- `urllib.parse.quote_plus` as used by the template filter. -/
def quote_plus (s : String) : String :=
  ⟨quotePlusList s.data⟩

/-- `urlencode_filter` (MyApp.py lines 29-31): the `urlencode` template filter,
`urllib.parse.quote_plus(s)`. -/
def urlencode_filter (s : String) : String :=
  quote_plus s

/-- A character that may appear in a URL path segment without breaking it or
starting another URL component: unreserved characters, the `%` of a percent
escape, and the literal plus sign (a legal `pchar`). -/
def segmentSafe (c : Char) : Bool :=
  c.isAlphanum || c == '_' || c == '.' || c == '-' || c == '~' || c == '+' || c == '%'

/-- The operation handlers of the Request Router: one constructor per
`@app.route`-decorated function in MyApp.py. -/
inductive Handler where
  | home
  | list_objects
  | create_bucket
  | delete_bucket
  | upload_file
  | delete_file
  | download_file
  | copy_file
  | move_file
  | create_folder
deriving DecidableEq, Repr

/-- All operation handlers registered on the Request Router, in source
order (MyApp.py lines 35-195). -/
def allHandlers : List Handler :=
  [.home, .list_objects, .create_bucket, .delete_bucket, .upload_file,
   .delete_file, .download_file, .copy_file, .move_file, .create_folder]

/-- One request's inputs, covering every handler's path and form parameters
(each handler reads only the fields its route declares). -/
structure Request where
  bucket : String
  key : String
  bucket_name : String
  file : Option (String × List Nat)
  dest_bucket : String
  dest_key : Option String
  folder_name : String
deriving DecidableEq, Repr

/-- A fault schedule: the provider's verdicts on a handler's first and second
remote call (`some e` = the call raises `ClientError` with text `e`). -/
structure Faults where
  first : Option String
  second : Option String
deriving DecidableEq, Repr

/-- The Request Router: dispatches a request to the handler's translation. -/
def dispatch (h : Handler) (creds : Bool) (req : Request) (f : Faults)
    (st : S3State) : HandlerResult :=
  match h with
  | .home => home creds f.first st
  | .list_objects => list_objects creds req.bucket f.first f.second st
  | .create_bucket => create_bucket creds req.bucket_name f.first st
  | .delete_bucket => delete_bucket creds req.bucket f.first st
  | .upload_file => upload_file creds req.bucket req.file f.first st
  | .delete_file => delete_file creds req.bucket req.key f.first st
  | .download_file => download_file creds req.bucket req.key f.first st
  | .copy_file => copy_file creds req.bucket req.key req.dest_bucket req.dest_key f.first st
  | .move_file => move_file creds req.bucket req.key req.dest_bucket req.dest_key f.first f.second st
  | .create_folder => create_folder creds req.bucket req.folder_name f.first st

/-! ### Helper lemmas about the store -/

theorem find?_filter_of_imp {α : Type} (p q : α → Bool) (l : List α)
    (h : ∀ x, p x = true → q x = true) : (l.filter q).find? p = l.find? p := by
  induction l with
  | nil => rfl
  | cons a l ih =>
    cases hq : q a with
    | true =>
      cases hp : p a with
      | true =>
        rw [List.filter_cons_of_pos hq, List.find?_cons_of_pos _ hp,
          List.find?_cons_of_pos _ hp]
      | false =>
        rw [List.filter_cons_of_pos hq, List.find?_cons_of_neg _ (by simp [hp]),
          List.find?_cons_of_neg _ (by simp [hp]), ih]
    | false =>
      have hp : p a = false := by
        cases hpa : p a with
        | true => rw [h a hpa] at hq; exact absurd hq (by simp)
        | false => rfl
      rw [List.filter_cons_of_neg (by simp [hq]), ih,
        List.find?_cons_of_neg _ (by simp [hp])]

theorem find?_filter_none {α : Type} (p q : α → Bool) (l : List α)
    (h : ∀ x, p x = true → q x = false) : (l.filter q).find? p = none := by
  induction l with
  | nil => rfl
  | cons a l ih =>
    cases hq : q a with
    | true =>
      have hp : p a = false := by
        cases hpa : p a with
        | true => rw [h a hpa] at hq; exact absurd hq (by simp)
        | false => rfl
      rw [List.filter_cons_of_pos hq, List.find?_cons_of_neg _ (by simp [hp]), ih]
    | false => rw [List.filter_cons_of_neg (by simp [hq]), ih]

theorem getObj_putObj_same (st : S3State) (b k : String) (c : List Nat) :
    (st.putObj b k c).getObj b k = some c := by
  simp [S3State.getObj, S3State.putObj, List.find?_cons_of_pos]

theorem getObj_putObj_other (st : S3State) (b k b' k' : String) (c : List Nat)
    (h : ¬(b' = b ∧ k' = k)) :
    (st.putObj b k c).getObj b' k' = st.getObj b' k' := by
  unfold S3State.getObj S3State.putObj
  simp only
  rw [List.find?_cons_of_neg, find?_filter_of_imp]
  · intro x hx
    simp only [Bool.and_eq_true, beq_iff_eq] at hx
    simp only [Bool.not_eq_true', Bool.and_eq_false_iff, beq_eq_false_iff_ne, ne_eq]
    rcases hx with ⟨h1, h2⟩
    by_cases hb : x.1.1 = b
    · right
      intro hk
      exact h ⟨by rw [← h1, hb], by rw [← h2, hk]⟩
    · left
      exact hb
  · simp only [Bool.and_eq_true, beq_iff_eq, not_and]
    intro h1 h2
    exact h ⟨h1.symm, h2.symm⟩

/-! ### Claim theorems -/

/-- C1, counterexample to the claimed count: the Request Router registers ten
operation handlers (`home`, `list_objects`, `create_bucket`, `delete_bucket`,
`upload_file`, `delete_file`, `download_file`, `copy_file`, `move_file`,
`create_folder`), not eleven. -/
theorem C1_counterexample :
    allHandlers.length = 10 ∧ allHandlers.length ≠ 11 ∧ allHandlers.Nodup := by
  refine ⟨rfl, by decide, by decide⟩

/-- C1 (amended: ten handlers, not eleven): for every one of the ten operation
handlers, if the Credential Resolver reports unavailable, the handler performs
zero remote storage calls, flashes exactly the fixed credentials-not-found
notice, leaves the store untouched, and navigates to the home view. -/
theorem C1_creds_unavailable (h : Handler) (req : Request) (f : Faults) (st : S3State) :
    (dispatch h false req f st).calls = [] ∧
    (dispatch h false req f st).flashes = [credsNotice] ∧
    (dispatch h false req f st).nav.isHome = true ∧
    (dispatch h false req f st).state = st := by
  cases h <;> exact ⟨rfl, rfl, rfl, rfl⟩

/-- C2: a move request with no explicit `dest_key` copies (bucket, key) to
(dest_bucket, key) and then deletes (bucket, key); if the delete step fails
after the copy succeeded, the destination object still exists (no rollback)
and the failure notice is flashed. -/
theorem C2_move_default_dest (bucket key dest_bucket e : String) (st : S3State)
    (c : List Nat) (hsrc : st.getObj bucket key = some c) :
    (move_file true bucket key dest_bucket none none none st).state
        = (st.putObj dest_bucket key c).delObj bucket key ∧
    (move_file true bucket key dest_bucket none none (some e) st).state
        = st.putObj dest_bucket key c ∧
    (move_file true bucket key dest_bucket none none (some e) st).state.getObj
        dest_bucket key = some c ∧
    (move_file true bucket key dest_bucket none none (some e) st).flashes
        = [" Move failed: " ++ e] ∧
    (move_file true bucket key dest_bucket none none (some e) st).nav
        = .redirectList bucket := by
  refine ⟨?_, ?_, ?_, ?_, ?_⟩ <;>
    simp [move_file, ensure_s3, hsrc, getObj_putObj_same]

/-- C2 witness: a concrete move of `b/x` to bucket `b2` with no `dest_key`
field, whose delete step fails. -/
theorem C2_move_default_dest_witness :
    (move_file true "b" "x" "b2" none none (some "boom")
        ⟨["b", "b2"], [(("b", "x"), [7, 8])]⟩).state.getObj "b2" "x" = some [7, 8] ∧
    (move_file true "b" "x" "b2" none none (some "boom")
        ⟨["b", "b2"], [(("b", "x"), [7, 8])]⟩).flashes = [" Move failed: boom"] :=
  ⟨(C2_move_default_dest "b" "x" "b2" "boom" ⟨["b", "b2"], [(("b", "x"), [7, 8])]⟩
      [7, 8] (by decide)).2.2.1,
   (C2_move_default_dest "b" "x" "b2" "boom" ⟨["b", "b2"], [(("b", "x"), [7, 8])]⟩
      [7, 8] (by decide)).2.2.2.1⟩

/-- C3: every provider-reported failure of either remote call in
`list_objects` is caught at the handler boundary: the handler (a total
function, so no failure propagates) redirects to home, flashes exactly one
notice containing the provider's error text, and leaves the store untouched. -/
theorem C3_list_objects_failure (bucket e : String) (fKeys fBuckets : Option String)
    (st : S3State) (h : fKeys = some e ∨ (fKeys = none ∧ fBuckets = some e)) :
    (list_objects true bucket fKeys fBuckets st).nav = .redirectHome ∧
    (list_objects true bucket fKeys fBuckets st).flashes
        = [" Error accessing bucket: " ++ e] ∧
    (list_objects true bucket fKeys fBuckets st).state = st := by
  rcases h with h | ⟨h1, h2⟩
  · subst h
    exact ⟨rfl, rfl, rfl⟩
  · subst h1; subst h2
    exact ⟨rfl, rfl, rfl⟩

/-- C3 witness: a concrete failing `list_buckets` call after a successful
`list_objects_v2`. -/
theorem C3_list_objects_failure_witness :
    (list_objects true "b" none (some "denied") ⟨["b"], []⟩).nav = Nav.redirectHome ∧
    (list_objects true "b" none (some "denied") ⟨["b"], []⟩).flashes
        = [" Error accessing bucket: denied"] :=
  ⟨(C3_list_objects_failure "b" "denied" none (some "denied") ⟨["b"], []⟩
      (Or.inr ⟨rfl, rfl⟩)).1,
   (C3_list_objects_failure "b" "denied" none (some "denied") ⟨["b"], []⟩
      (Or.inr ⟨rfl, rfl⟩)).2.1⟩

/-- C9: an upload request with no file provided performs no remote storage
call, changes nothing, flashes nothing, and redirects to the bucket's object
listing; with a file provided, the object is stored under the file's given
filename. -/
theorem C9_upload (bucket filename : String) (content : List Nat) (st : S3State) :
    (upload_file true bucket none none st).calls = [] ∧
    (upload_file true bucket none none st).state = st ∧
    (upload_file true bucket none none st).flashes = [] ∧
    (upload_file true bucket none none st).nav = .redirectList bucket ∧
    (upload_file true bucket (some (filename, content)) none st).state
        = st.putObj bucket filename content ∧
    (upload_file true bucket (some (filename, content)) none st).state.getObj
        bucket filename = some content ∧
    (upload_file true bucket (some (filename, content)) none st).nav
        = .redirectList bucket :=
  ⟨rfl, rfl, rfl, rfl, rfl, getObj_putObj_same st bucket filename content, rfl⟩

/-- C10: a move request whose copy step fails never attempts the delete of the
source (the trace holds only the copy call), leaves the store unchanged,
flashes the failure notice, and redirects to the source bucket's listing. -/
theorem C10_move_copy_fails (bucket key dest_bucket e : String)
    (destKeyField fDelete : Option String) (st : S3State) :
    (move_file true bucket key dest_bucket destKeyField (some e) fDelete st).state = st ∧
    (move_file true bucket key dest_bucket destKeyField (some e) fDelete st).calls
        = [.copy bucket key dest_bucket (destKeyField.getD key)] ∧
    (move_file true bucket key dest_bucket destKeyField (some e) fDelete st).flashes
        = [" Move failed: " ++ e] ∧
    (move_file true bucket key dest_bucket destKeyField (some e) fDelete st).nav
        = .redirectList bucket :=
  ⟨rfl, rfl, rfl, rfl⟩

/-- C4: `create_folder` appends exactly one `/` to a folder name without a
trailing slash and leaves a name already ending in `/` unchanged, then puts a
zero-byte object under that normalized key; in particular `"reports"` yields
key exactly `"reports/"` and `"reports/"` is not doubled. -/
theorem C4_create_folder (bucket folder_name : String) (st : S3State) :
    (endswithSlash folder_name = false →
      normalizeFolderName folder_name = folder_name ++ "/") ∧
    (endswithSlash folder_name = true →
      normalizeFolderName folder_name = folder_name) ∧
    (create_folder true bucket folder_name none st).state.getObj bucket
        (normalizeFolderName folder_name) = some [] ∧
    (create_folder true bucket folder_name none st).calls
        = [.putObject bucket (normalizeFolderName folder_name)] ∧
    normalizeFolderName "reports" = "reports/" ∧
    normalizeFolderName "reports/" = "reports/" := by
  refine ⟨?_, ?_, ?_, rfl, by decide, by decide⟩
  · intro h; simp [normalizeFolderName, h]
  · intro h; simp [normalizeFolderName, h]
  · exact getObj_putObj_same st bucket (normalizeFolderName folder_name) []

/-- C5: a copy request with an explicit `dest_key` places the object at
exactly (dest_bucket, dest_key), leaves the source object untouched, changes
no other object, and when `dest_key` is absent the handler behaves exactly as
if `dest_key` were the source key. -/
theorem C5_copy_explicit_dest (bucket key dest_bucket dest_key : String)
    (st : S3State) (c : List Nat) (hsrc : st.getObj bucket key = some c) :
    (copy_file true bucket key dest_bucket (some dest_key) none st).state.getObj
        dest_bucket dest_key = some c ∧
    (copy_file true bucket key dest_bucket (some dest_key) none st).state.getObj
        bucket key = some c ∧
    (∀ b' k', ¬(b' = dest_bucket ∧ k' = dest_key) →
      (copy_file true bucket key dest_bucket (some dest_key) none st).state.getObj
          b' k' = st.getObj b' k') ∧
    copy_file true bucket key dest_bucket none none st
        = copy_file true bucket key dest_bucket (some key) none st := by
  have hstate : (copy_file true bucket key dest_bucket (some dest_key) none st).state
      = st.putObj dest_bucket dest_key c := by
    simp [copy_file, ensure_s3, hsrc]
  refine ⟨?_, ?_, ?_, rfl⟩
  · rw [hstate]
    exact getObj_putObj_same st dest_bucket dest_key c
  · rw [hstate]
    by_cases hb : bucket = dest_bucket ∧ key = dest_key
    · rcases hb with ⟨hb, hk⟩
      rw [hb, hk]
      exact getObj_putObj_same st dest_bucket dest_key c
    · rw [getObj_putObj_other st dest_bucket dest_key bucket key c hb]
      exact hsrc
  · intro b' k' h
    rw [hstate, getObj_putObj_other st dest_bucket dest_key b' k' c h]

/-- C5 witness: a concrete copy of `b/x` to `b2/y`; the object appears at
`b2/y` and the source `b/x` is untouched. -/
theorem C5_copy_explicit_dest_witness :
    (copy_file true "b" "x" "b2" (some "y") none
        ⟨["b", "b2"], [(("b", "x"), [9])]⟩).state.getObj "b2" "y" = some [9] ∧
    (copy_file true "b" "x" "b2" (some "y") none
        ⟨["b", "b2"], [(("b", "x"), [9])]⟩).state.getObj "b" "x" = some [9] :=
  ⟨(C5_copy_explicit_dest "b" "x" "b2" "y" ⟨["b", "b2"], [(("b", "x"), [9])]⟩
      [9] (by decide)).1,
   (C5_copy_explicit_dest "b" "x" "b2" "y" ⟨["b", "b2"], [(("b", "x"), [9])]⟩
      [9] (by decide)).2.1⟩

/-- C6: a successful download responds with an attachment whose download name
is the last `/`-separated segment of the key and whose bytes are exactly the
stored object's content; the store is untouched and nothing is flashed. -/
theorem C6_download (bucket key : String) (st : S3State) (c : List Nat)
    (hsrc : st.getObj bucket key = some c) :
    (download_file true bucket key none st).nav = .sendFile (lastSegment key) c ∧
    (download_file true bucket key none st).state = st ∧
    (download_file true bucket key none st).flashes = [] := by
  refine ⟨?_, ?_, ?_⟩ <;> simp [download_file, ensure_s3, hsrc]

/-- C6 witness: downloading key `a/b/report.csv` yields an attachment named
`report.csv` with the stored bytes. -/
theorem C6_download_witness :
    (download_file true "b" "a/b/report.csv" none
        ⟨["b"], [(("b", "a/b/report.csv"), [1, 2, 3])]⟩).nav
      = Nav.sendFile "report.csv" [1, 2, 3] := by
  have h := (C6_download "b" "a/b/report.csv"
      ⟨["b"], [(("b", "a/b/report.csv"), [1, 2, 3])]⟩ [1, 2, 3] (by decide)).1
  rw [h]
  have hseg : lastSegment "a/b/report.csv" = "report.csv" := by decide
  rw [hseg]

/-- C8: `get_s3_client` is total at its boundary: for every outcome of client
construction (success, or the `NoCredentialsError` that ambient credential
discovery raises) it returns either a usable client or `None`, and never lets
an exception escape past the boundary. -/
theorem C8_get_s3_client (construct : Except PyExn Unit)
    (h : construct = .ok () ∨ construct = .error .noCredentialsError) :
    (get_s3_client construct = .ok (some ()) ∨ get_s3_client construct = .ok none) ∧
    ∀ e, get_s3_client construct ≠ .error e := by
  rcases h with h | h <;> subst h
  · exact ⟨Or.inl rfl, fun e hc => by simp [get_s3_client] at hc⟩
  · exact ⟨Or.inr rfl, fun e hc => by simp [get_s3_client] at hc⟩

/-- C8 witness: on the `NoCredentialsError` construction outcome the resolver
returns a value (the unavailable `none`) rather than re-raising. -/
theorem C8_get_s3_client_witness :
    (get_s3_client (Except.error PyExn.noCredentialsError) = Except.ok (some ()) ∨
     get_s3_client (Except.error PyExn.noCredentialsError) = Except.ok none) ∧
    get_s3_client (Except.error PyExn.noCredentialsError)
        ≠ Except.error PyExn.noCredentialsError :=
  ⟨(C8_get_s3_client (Except.error PyExn.noCredentialsError) (Or.inr rfl)).1,
   (C8_get_s3_client (Except.error PyExn.noCredentialsError) (Or.inr rfl)).2
      PyExn.noCredentialsError⟩

/-! ### Lemmas for the urlencode filter (C7) -/

theorem char_toNat_lt (c : Char) : c.toNat < 1114112 := by
  have h := c.valid
  rcases h with h | ⟨_, h⟩
  · exact Nat.lt_trans h (by norm_num)
  · exact h

theorem utf8Bytes_lt (c : Char) : ∀ b ∈ utf8Bytes c, b < 256 := by
  intro b hb
  have hc : c.toNat < 1114112 := char_toNat_lt c
  unfold utf8Bytes at hb
  by_cases h1 : c.toNat < 128
  · simp [h1] at hb
    omega
  · by_cases h2 : c.toNat < 2048
    · simp [h1, h2] at hb
      rcases hb with hb | hb <;> omega
    · by_cases h3 : c.toNat < 65536
      · simp [h1, h2, h3] at hb
        rcases hb with hb | hb | hb <;> omega
      · simp [h1, h2, h3] at hb
        rcases hb with hb | hb | hb | hb <;> omega

theorem hexDigit_isAlphanum : ∀ n, n < 16 → (hexDigit n).isAlphanum = true := by
  decide

theorem quoteSafe_segmentSafe (c : Char) (h : quoteSafe c = true) :
    segmentSafe c = true := by
  simp only [quoteSafe, Bool.or_eq_true] at h
  simp only [segmentSafe, Bool.or_eq_true]
  tauto

theorem quotePlusChar_safe (a c : Char) (h : c ∈ quotePlusChar a) :
    segmentSafe c = true := by
  unfold quotePlusChar at h
  by_cases h1 : a = ' '
  · simp [h1] at h
    subst h
    decide
  · by_cases h2 : quoteSafe a = true
    · simp [h1, h2] at h
      subst h
      exact quoteSafe_segmentSafe c h2
    · simp [h1, h2, List.mem_flatMap] at h
      rcases h with ⟨b, hb, hc⟩
      have hblt : b < 256 := utf8Bytes_lt a b hb
      rcases hc with hc | hc | hc <;> subst hc
      · decide
      · have := hexDigit_isAlphanum (b / 16) (by omega)
        simp [segmentSafe, this]
      · have := hexDigit_isAlphanum (b % 16) (by omega)
        simp [segmentSafe, this]

theorem quotePlusList_safe (l : List Char) (c : Char) (h : c ∈ quotePlusList l) :
    segmentSafe c = true := by
  induction l with
  | nil => simp [quotePlusList] at h
  | cons a l ih =>
    simp only [quotePlusList] at h
    rcases List.mem_append.mp h with h | h
    · exact quotePlusChar_safe a c h
    · exact ih h

/-- C7: every character of the urlencode template filter's output is either
alphanumeric or one of `_ . - ~ + %`; in particular no path separator, query
or fragment delimiter, or blank survives, so an encoded key stays inside one
path segment of a generated link. -/
theorem C7_urlencode_filter (s : String) (c : Char)
    (hc : c ∈ (urlencode_filter s).data) :
    segmentSafe c = true ∧ c ≠ '/' ∧ c ≠ '?' ∧ c ≠ '#' ∧ c ≠ ' ' := by
  have hs : segmentSafe c = true := quotePlusList_safe s.data c hc
  refine ⟨hs, ?_, ?_, ?_, ?_⟩ <;>
    (intro h; subst h; revert hs; decide)

/-- C7 witness: the encoding of the key `a/b c?d` contains `%` (the escape of
its slash), which is segment-safe and is not a path separator. -/
theorem C7_urlencode_filter_witness :
    ('%' ∈ (urlencode_filter "a/b c?d").data) ∧ segmentSafe '%' = true ∧
    urlencode_filter "a/b c?d" = "a%2Fb+c%3Fd" :=
  ⟨by decide, (C7_urlencode_filter "a/b c?d" '%' (by decide)).1, by decide⟩

end MyApp
